import Mathlib

/-!
Shallow embedding of the Confluence MCP server (src/confluence.py):
a JSON value model mirroring Python dict/list/str/int values, the
transport adapter `make_confluence_request`, and the four tool handlers
(`list_spaces`, `get_page_content`, `search_content`,
`list_pages_in_space`), each split into its parameter-building part and
its response-rendering part exactly as the Python code computes them.
Fallible Python operations (attribute errors on non-dict `.get`,
`str.join` over non-strings, `for` over non-iterables, non-ASCII
`.encode`) are modelled with `Option`.
-/

namespace Confluence

/-- Python values that can appear in the JSON payloads and parameter
mappings handled by the program: `None`, booleans, integers, strings,
lists and (insertion-ordered) dicts with string keys. -/
inductive Json where
  | null : Json
  | bool : Bool → Json
  | num : Int → Json
  | str : String → Json
  | arr : List Json → Json
  | obj : List (String × Json) → Json

/-- First-match lookup in an association list, modelling Python dict key
lookup (dict literals in the program never repeat a key). -/
def pyLookup : List (String × Json) → String → Option Json
  | [], _ => none
  | (k, v) :: rest, key => if k = key then some v else pyLookup rest key

/-- Python `d.get(key, default)`: `some` of the value or the default when
`d` is a dict, `none` (AttributeError) when `d` is not a dict. -/
def pyGetD : Json → String → Json → Option Json
  | Json.obj kvs, key, dflt => some ((pyLookup kvs key).getD dflt)
  | _, _, _ => none

/-- Python `key in d` for the shapes that do not raise: key membership on
a dict, element equality on a list, substring test on a string; `none`
(TypeError) otherwise. -/
def pyIn (key : String) : Json → Option Bool
  | Json.obj kvs => some (pyLookup kvs key).isSome
  | Json.arr xs => some (xs.any (fun j => match j with
      | Json.str s => s = key
      | _ => false))
  | Json.str s => some (((s.splitOn key).length != 1) || (key = ""))
  | _ => none

/-- Python iteration `for x in v`: list elements, dict keys, or the
characters of a string; `none` (TypeError) for non-iterables. -/
def pyIterList : Json → Option (List Json)
  | Json.arr xs => some xs
  | Json.obj kvs => some (kvs.map (fun kv => Json.str kv.fst))
  | Json.str s => some (s.toList.map (fun c => Json.str (String.mk [c])))
  | _ => none

/-- Sequencing of a fallible step over a list, used for Python `for`
loops and comprehensions whose body can raise: the first failure aborts
the whole computation. -/
def optionMapM (f : α → Option β) : List α → Option (List β)
  | [] => some []
  | x :: rest => do
    let y ← f x
    let ys ← optionMapM f rest
    pure (y :: ys)

mutual
/-- Python `str(v)` as used by f-string interpolation. -/
def pyStr : Json → String
  | Json.null => "None"
  | Json.bool true => "True"
  | Json.bool false => "False"
  | Json.num n => toString n
  | Json.str s => s
  | Json.arr xs => "[" ++ pyReprList xs ++ "]"
  | Json.obj kvs => "\x7b" ++ pyReprObj kvs ++ "\x7d"

/-- Python `repr(v)` for values nested inside containers. -/
def pyRepr : Json → String
  | Json.null => "None"
  | Json.bool true => "True"
  | Json.bool false => "False"
  | Json.num n => toString n
  | Json.str s => "\x27" ++ s ++ "\x27"
  | Json.arr xs => "[" ++ pyReprList xs ++ "]"
  | Json.obj kvs => "\x7b" ++ pyReprObj kvs ++ "\x7d"

/-- Comma-separated `repr`s of list elements. -/
def pyReprList : List Json → String
  | [] => ""
  | [x] => pyRepr x
  | x :: rest => pyRepr x ++ ", " ++ pyReprList rest

/-- Comma-separated `key: value` `repr`s of dict entries. -/
def pyReprObj : List (String × Json) → String
  | [] => ""
  | [(k, v)] => "\x27" ++ k ++ "\x27: " ++ pyRepr v
  | (k, v) :: rest => "\x27" ++ k ++ "\x27: " ++ pyRepr v ++ ", " ++ pyReprObj rest
end

/-- Python `s.encode('ascii')`: the byte values of the characters, or
`none` (UnicodeEncodeError) when some character is not ASCII. -/
def asciiEncode (s : String) : Option (List Nat) :=
  optionMapM (fun c => if c.toNat < 128 then some c.toNat else none) s.toList

/-- One character of the standard base64 alphabet (`A-Za-z0-9+/`). -/
def b64Char (n : Nat) : Char :=
  if n < 26 then Char.ofNat (65 + n)
  else if n < 52 then Char.ofNat (97 + (n - 26))
  else if n < 62 then Char.ofNat (48 + (n - 52))
  else if n = 62 then Char.ofNat 43
  else Char.ofNat 47

/-- Standard base64 of a byte list with `=` padding, modelling
`base64.b64encode`. -/
def base64Encode : List Nat → List Char
  | [] => []
  | [a] =>
      [b64Char (a / 4), b64Char ((a % 4) * 16), Char.ofNat 61, Char.ofNat 61]
  | [a, b] =>
      [b64Char (a / 4), b64Char ((a % 4) * 16 + b / 16),
       b64Char ((b % 16) * 4), Char.ofNat 61]
  | a :: b :: c :: rest =>
      b64Char (a / 4) :: b64Char ((a % 4) * 16 + b / 16) ::
      b64Char ((b % 16) * 4 + c / 64) :: b64Char (c % 64) :: base64Encode rest

/-- The HTTP request the adapter hands to the `httpx` client: URL,
method, headers, query parameters (GET) or JSON body (other methods),
and timeout in seconds. -/
structure HttpRequest where
  url : String
  method : String
  headers : List (String × String)
  queryParams : Option (List (String × Json))
  jsonBody : Option (List (String × Json))
  timeout : Nat

/-- Every behaviour the `httpx` call composed with `raise_for_status()`
and `response.json()` can exhibit: a parsed success payload, an HTTP
error status (`httpx.HTTPStatusError`, an `httpx.HTTPError`), a network
failure (`httpx.TransportError`, an `httpx.HTTPError`), an unparseable
body (`json.JSONDecodeError`, not an `httpx.HTTPError`), or any other
exception. Each failure carries its `str(e)` message. -/
inductive HttpOutcome where
  | success : Json → HttpOutcome
  | statusError : String → HttpOutcome
  | networkError : String → HttpOutcome
  | parseError : String → HttpOutcome
  | otherExc : String → HttpOutcome

/-- The request issued by `make_confluence_request` (src/confluence.py
lines 61-64): parameters travel as the query string for GET and as the
JSON body for any other method; the timeout is the fixed 30 seconds. -/
def buildHttpRequest (url method : String)
    (headers : List (String × String))
    (params : Option (List (String × Json))) : HttpRequest :=
  if method = "GET" then
    { url := url, method := method, headers := headers,
      queryParams := params, jsonBody := none, timeout := 30 }
  else
    { url := url, method := method, headers := headers,
      queryParams := none, jsonBody := params, timeout := 30 }

/-- The try/except classification of `make_confluence_request`
(src/confluence.py lines 60-71): a success payload is returned as
parsed; an `httpx.HTTPError` (status error or transport failure) yields
an `Error making request` mapping; any other exception (including JSON
parse failures) yields an `Unexpected error` mapping. -/
def classifyOutcome : HttpOutcome → Json
  | HttpOutcome.success j => j
  | HttpOutcome.statusError m =>
      Json.obj [("error", Json.str ("Error making request: " ++ m))]
  | HttpOutcome.networkError m =>
      Json.obj [("error", Json.str ("Error making request: " ++ m))]
  | HttpOutcome.parseError m =>
      Json.obj [("error", Json.str ("Unexpected error: " ++ m))]
  | HttpOutcome.otherExc m =>
      Json.obj [("error", Json.str ("Unexpected error: " ++ m))]

/-- `make_confluence_request` (src/confluence.py lines 44-71), with the
network modelled as an oracle `net` from the issued request to its
outcome. Returns `none` when the Python code would raise (non-ASCII
credentials fail `.encode('ascii')` outside the try block); otherwise
`some` of the returned mapping paired with the request issued (`none`
when no network call was made). -/
def make_confluence_request (net : HttpRequest → HttpOutcome)
    (username api_token : String) (url : String) (method : String)
    (params : Option (List (String × Json))) :
    Option (Json × Option HttpRequest) :=
  if username = "" ∨ api_token = "" then
    some (Json.obj [("error",
      Json.str "Please set your Confluence username and API token")], none)
  else
    match asciiEncode (username ++ ":" ++ api_token) with
    | none => none
    | some auth_bytes =>
      let base64_auth := String.mk (base64Encode auth_bytes)
      let headers := [("Authorization", "Basic " ++ base64_auth),
                      ("Accept", "application/json")]
      let req : HttpRequest := buildHttpRequest url method headers params
      some (classifyOutcome (net req), some req)

/-- The JSON value a Python `Optional[int]` argument contributes to a
parameter mapping (`None` becomes JSON null). -/
def optIntJson : Option Int → Json
  | none => Json.null
  | some n => Json.num n

/-- Parameter mapping built by `list_spaces` (src/confluence.py lines
87-93): `limit`, `start` and the fixed `expand`, plus `name` exactly when
the optional `query` is truthy (not `None` and not empty). -/
def list_spaces_params (query : Option String) (limit start : Option Int) :
    List (String × Json) :=
  let params := [("limit", optIntJson limit), ("start", optIntJson start),
                 ("expand", Json.str "description.plain,homepage")]
  match query with
  | some q => if q = "" then params else params ++ [("name", Json.str q)]
  | none => params

/-- The f-string template of one space block in `list_spaces`
(src/confluence.py lines 102-107), whitespace exactly as in the source. -/
def space_info_text (name key type_ description : String) : String :=
  "\n            Space: " ++ name ++
  "\n            Key: " ++ key ++
  "\n            Type: " ++ type_ ++
  "\n            Description: " ++ description ++
  "\n            "

/-- One space rendered by `list_spaces`: each field is fetched with
`dict.get` and a placeholder default; `none` when the item (or a present
intermediate of the description chain) is not a dict. -/
def space_info (space : Json) : Option String := do
  let name ← pyGetD space "name" (Json.str "Unknown")
  let key ← pyGetD space "key" (Json.str "Unknown")
  let type_ ← pyGetD space "type" (Json.str "Unknown")
  let desc0 ← pyGetD space "description" (Json.obj [])
  let desc1 ← pyGetD desc0 "plain" (Json.obj [])
  let descv ← pyGetD desc1 "value" (Json.str "No description")
  pure (space_info_text (pyStr name) (pyStr key) (pyStr type_) (pyStr descv))

/-- Response processing of `list_spaces` (src/confluence.py lines
96-110): an error mapping is returned as-is, otherwise the space blocks
are joined with the separator, with a sentinel when there are none. -/
def list_spaces_render (data : Json) : Option Json := do
  let isErr ← pyIn "error" data
  if isErr then
    pure data
  else do
    let results ← pyGetD data "results" (Json.arr [])
    let items ← pyIterList results
    let blocks ← optionMapM space_info items
    pure (Json.str (match blocks with
      | [] => "No spaces found"
      | _ => String.intercalate "\n---\n" blocks))

/-- Parameter mapping built by `get_page_content` (src/confluence.py
lines 120-122). -/
def get_page_content_params : List (String × Json) :=
  [("expand", Json.str "body.storage,version,space,metadata.labels")]

/-- The per-element requirement of Python `str.join`: the element must
already be a string, anything else is a TypeError. -/
def asPyStr : Json → Option String
  | Json.str s => some s
  | _ => none

/-- Python `sep.join(xs)`: `none` (TypeError) when some element is not a
string. -/
def pyJoin (sep : String) (xs : List Json) : Option String := do
  let strs ← optionMapM asPyStr xs
  pure (String.intercalate sep strs)

/-- Python `', '.join(labels) if labels else 'No labels'` in
`get_page_content` (src/confluence.py line 139). -/
def labels_text (labels : List Json) : Option String :=
  match labels with
  | [] => some "No labels"
  | _ => pyJoin ", " labels

/-- The f-string template of `get_page_content` (src/confluence.py lines
135-143), whitespace exactly as in the source. -/
def page_text (title space version labelsText content : String) : String :=
  "\n        Title: " ++ title ++
  "\n        Space: " ++ space ++
  "\n        Version: " ++ version ++
  "\n        Labels: " ++ labelsText ++
  "\n\n        Content:\n        " ++ content ++
  "\n        "

/-- The storage-body extraction of `get_page_content` (src/confluence.py
line 132): `data.get("body", {}).get("storage", {}).get("value", "No
content")`. -/
def page_content_value (data : Json) : Option Json := do
  let body0 ← pyGetD data "body" (Json.obj [])
  let storage0 ← pyGetD body0 "storage" (Json.obj [])
  pyGetD storage0 "value" (Json.str "No content")

/-- The body of the label comprehension (src/confluence.py line 133):
`label.get("name")`, with Python's implicit `None` default. -/
def label_get_name (l : Json) : Option Json :=
  pyGetD l "name" Json.null

/-- The label-name list comprehension of `get_page_content`
(src/confluence.py line 133): `label.get("name")` (default `None`) over
`data.get("metadata", {}).get("labels", {}).get("results", [])`. -/
def page_labels (data : Json) : Option (List Json) := do
  let meta0 ← pyGetD data "metadata" (Json.obj [])
  let labels0 ← pyGetD meta0 "labels" (Json.obj [])
  let results ← pyGetD labels0 "results" (Json.arr [])
  let labelItems ← pyIterList results
  optionMapM label_get_name labelItems

/-- Response processing of `get_page_content` (src/confluence.py lines
125-143): an error mapping is returned as-is, otherwise the title,
space name, version number, label names and storage body are extracted
with placeholder defaults and rendered. -/
def get_page_content_render (data : Json) : Option Json := do
  let isErr ← pyIn "error" data
  if isErr then
    pure data
  else do
    let title ← pyGetD data "title" (Json.str "Unknown")
    let space0 ← pyGetD data "space" (Json.obj [])
    let space ← pyGetD space0 "name" (Json.str "Unknown")
    let version0 ← pyGetD data "version" (Json.obj [])
    let version ← pyGetD version0 "number" (Json.str "Unknown")
    let content ← page_content_value data
    let labels ← page_labels data
    let labelsText ← labels_text labels
    pure (Json.str (page_text (pyStr title) (pyStr space) (pyStr version)
      labelsText (pyStr content)))

/-- CQL expression built by `search_content` (src/confluence.py lines
162-164): the query is interpolated verbatim, and a space filter is
appended exactly when the optional `space_key` is truthy. -/
def search_cql (query : String) (space_key : Option String) : String :=
  let cql := "text ~ \"" ++ query ++ "\""
  match space_key with
  | some k => if k = "" then cql else cql ++ " AND space.key = \"" ++ k ++ "\""
  | none => cql

/-- Parameter mapping built by `search_content` (src/confluence.py lines
166-171). -/
def search_content_params (query : String) (space_key : Option String)
    (limit start : Option Int) : List (String × Json) :=
  [("cql", Json.str (search_cql query space_key)),
   ("limit", optIntJson limit), ("start", optIntJson start),
   ("expand", Json.str "space,version")]

/-- The f-string template of one result block in `search_content`
(src/confluence.py lines 180-186), whitespace exactly as in the source. -/
def content_info_text (title type_ space id lastUpdated : String) : String :=
  "\nTitle: " ++ title ++
  "\nType: " ++ type_ ++
  "\nSpace: " ++ space ++
  "\nID: " ++ id ++
  "\nLast Updated: " ++ lastUpdated ++
  "\n"

/-- One result rendered by `search_content`. -/
def content_info (content : Json) : Option String := do
  let title ← pyGetD content "title" (Json.str "Unknown")
  let type_ ← pyGetD content "type" (Json.str "Unknown")
  let space0 ← pyGetD content "space" (Json.obj [])
  let space ← pyGetD space0 "name" (Json.str "Unknown")
  let id ← pyGetD content "id" (Json.str "Unknown")
  let version0 ← pyGetD content "version" (Json.obj [])
  let when_ ← pyGetD version0 "when" (Json.str "Unknown")
  pure (content_info_text (pyStr title) (pyStr type_) (pyStr space)
    (pyStr id) (pyStr when_))

/-- Response processing of `search_content` (src/confluence.py lines
174-189). -/
def search_content_render (data : Json) : Option Json := do
  let isErr ← pyIn "error" data
  if isErr then
    pure data
  else do
    let results ← pyGetD data "results" (Json.arr [])
    let items ← pyIterList results
    let blocks ← optionMapM content_info items
    pure (Json.str (match blocks with
      | [] => "No results found"
      | _ => String.intercalate "\n---\n" blocks))

/-- Parameter mapping built by `list_pages_in_space` (src/confluence.py
lines 205-211). -/
def list_pages_in_space_params (space_key : String)
    (limit start : Option Int) : List (String × Json) :=
  [("spaceKey", Json.str space_key), ("type", Json.str "page"),
   ("limit", optIntJson limit), ("start", optIntJson start),
   ("expand", Json.str "version")]

/-- The f-string template of one page block in `list_pages_in_space`
(src/confluence.py lines 220-224), whitespace exactly as in the source. -/
def page_info_text (title id lastUpdated : String) : String :=
  "\nTitle: " ++ title ++
  "\nID: " ++ id ++
  "\nLast Updated: " ++ lastUpdated ++
  "\n"

/-- One page rendered by `list_pages_in_space`. -/
def page_info (page : Json) : Option String := do
  let title ← pyGetD page "title" (Json.str "Unknown")
  let id ← pyGetD page "id" (Json.str "Unknown")
  let version0 ← pyGetD page "version" (Json.obj [])
  let when_ ← pyGetD version0 "when" (Json.str "Unknown")
  pure (page_info_text (pyStr title) (pyStr id) (pyStr when_))

/-- Response processing of `list_pages_in_space` (src/confluence.py
lines 214-227); the empty sentinel interpolates the queried space key. -/
def list_pages_in_space_render (space_key : String) (data : Json) :
    Option Json := do
  let isErr ← pyIn "error" data
  if isErr then
    pure data
  else do
    let results ← pyGetD data "results" (Json.arr [])
    let items ← pyIterList results
    let blocks ← optionMapM page_info items
    pure (Json.str (match blocks with
      | [] => "No pages found in space " ++ space_key
      | _ => String.intercalate "\n---\n" blocks))

/-- Characters stripped by Python `int(str)` around the digits
(ASCII whitespace: space, tab, newline, carriage return, form feed,
vertical tab). -/
def pyIsSpace (c : Char) : Bool :=
  c.toNat = 32 || c.toNat = 9 || c.toNat = 10 || c.toNat = 13 ||
  c.toNat = 12 || c.toNat = 11

/-- Digit-run parser of Python `int(str)`: decimal digits with single
underscores allowed only between digits; `acc` is the value so far and
`lastDigit` whether the previous character was a digit. -/
def pyIntDigits : List Char → Nat → Bool → Option Nat
  | [], acc, true => some acc
  | [], _, false => none
  | c :: rest, acc, lastDigit =>
    if c.isDigit then pyIntDigits rest (acc * 10 + (c.toNat - 48)) true
    else if c.toNat = 95 && lastDigit then pyIntDigits rest acc false
    else none

/-- Python `int(s)` for `str` arguments: strip surrounding whitespace,
optional sign, then a digit run; `none` models `ValueError`. -/
def pyInt (s : String) : Option Int :=
  let cs := ((s.toList.dropWhile pyIsSpace).reverse.dropWhile pyIsSpace).reverse
  match cs with
  | [] => none
  | c :: rest =>
    if c.toNat = 45 then (pyIntDigits rest 0 false).map (fun n => -(n : Int))
    else if c.toNat = 43 then (pyIntDigits rest 0 false).map (fun n => (n : Int))
    else (pyIntDigits cs 0 false).map (fun n => (n : Int))

/-- The module-level port resolution (src/confluence.py lines 18-27):
8000 when the PORT environment variable is absent, `int(port_str)` when
it parses, and 8000 again when `int` raises `ValueError`. -/
def parsePort (port_str : Option String) : Int :=
  match port_str with
  | none => 8000
  | some s =>
    match pyInt s with
    | some n => n
    | none => 8000

/-- An optional entry of a JSON object under construction. -/
def optEntry (key : String) : Option Json → List (String × Json)
  | none => []
  | some v => [(key, v)]

/-- A space item of a `list_spaces` payload in which each extracted
field — `name`, `key`, `type` and the nested
`description.plain.value` — is independently present or absent. -/
def mkSpaceItem (name key type_ descv : Option String) : Json :=
  Json.obj (optEntry "name" (name.map Json.str) ++
    optEntry "key" (key.map Json.str) ++
    optEntry "type" (type_.map Json.str) ++
    optEntry "description" (descv.map (fun v =>
      Json.obj [("plain", Json.obj [("value", Json.str v)])])))

/-- A `get_page_content` payload in which each extracted field —
`title`, the nested `space.name`, `version.number`,
`body.storage.value` and `metadata.labels.results` — is independently
present or absent. -/
def mkPagePayload (title spaceName : Option String) (versionNum : Option Int)
    (content : Option String) (labels : Option (List String)) : Json :=
  Json.obj (optEntry "title" (title.map Json.str) ++
    optEntry "space" (spaceName.map (fun s =>
      Json.obj [("name", Json.str s)])) ++
    optEntry "version" (versionNum.map (fun n =>
      Json.obj [("number", Json.num n)])) ++
    optEntry "body" (content.map (fun c =>
      Json.obj [("storage", Json.obj [("value", Json.str c)])])) ++
    optEntry "metadata" (labels.map (fun ls =>
      Json.obj [("labels", Json.obj [("results",
        Json.arr (ls.map (fun l => Json.obj [("name", Json.str l)])))])])))

/-- `list_spaces` end to end: build URL and parameters, call the
transport adapter, render the result (src/confluence.py lines 74-110). -/
def list_spaces (net : HttpRequest → HttpOutcome)
    (base_url username api_token : String) (query : Option String)
    (limit start : Option Int) : Option Json := do
  let url := base_url ++ "/space"
  let (data, _) ← make_confluence_request net username api_token url "GET"
    (some (list_spaces_params query limit start))
  list_spaces_render data

/-- `get_page_content` end to end (src/confluence.py lines 113-143). -/
def get_page_content (net : HttpRequest → HttpOutcome)
    (base_url username api_token page_id : String) : Option Json := do
  let url := base_url ++ "/content/" ++ page_id
  let (data, _) ← make_confluence_request net username api_token url "GET"
    (some get_page_content_params)
  get_page_content_render data

/-- `search_content` end to end (src/confluence.py lines 146-189). -/
def search_content (net : HttpRequest → HttpOutcome)
    (base_url username api_token : String) (query : String)
    (space_key : Option String) (limit start : Option Int) : Option Json := do
  let url := base_url ++ "/content/search"
  let (data, _) ← make_confluence_request net username api_token url "GET"
    (some (search_content_params query space_key limit start))
  search_content_render data

/-- `list_pages_in_space` end to end (src/confluence.py lines
192-227). -/
def list_pages_in_space (net : HttpRequest → HttpOutcome)
    (base_url username api_token space_key : String)
    (limit start : Option Int) : Option Json := do
  let url := base_url ++ "/content"
  let (data, _) ← make_confluence_request net username api_token url "GET"
    (some (list_pages_in_space_params space_key limit start))
  list_pages_in_space_render space_key data

/-! ### Helper lemmas -/

theorem mapM_extract_str (ls : List String) :
    optionMapM asPyStr (ls.map Json.str) = some ls := by
  induction ls with
  | nil => rfl
  | cons l rest ih => simp [optionMapM, asPyStr, ih]

theorem pyJoin_map_str (sep : String) (ls : List String) :
    pyJoin sep (ls.map Json.str) = some (String.intercalate sep ls) := by
  simp [pyJoin, mapM_extract_str ls]

theorem mapM_label_names (ls : List String) :
    optionMapM label_get_name
      (ls.map (fun s => Json.obj [("name", Json.str s)])) =
      some (ls.map Json.str) := by
  induction ls with
  | nil => rfl
  | cons l rest ih =>
    have hhead : label_get_name (Json.obj [("name", Json.str l)]) =
        some (Json.str l) := rfl
    simp [optionMapM, hhead, ih]

/-! ### Claims -/

/-- C1 evidence: when the adapter result is an error mapping, every tool
handler returns the whole mapping itself (the `return data` on
src/confluence.py lines 97, 126, 175 and 215), which is not the error
message string. -/
theorem c1_handlers_return_error_mapping_not_message :
    list_spaces_render (Json.obj [("error", Json.str "boom")]) =
      some (Json.obj [("error", Json.str "boom")]) ∧
    get_page_content_render (Json.obj [("error", Json.str "boom")]) =
      some (Json.obj [("error", Json.str "boom")]) ∧
    search_content_render (Json.obj [("error", Json.str "boom")]) =
      some (Json.obj [("error", Json.str "boom")]) ∧
    list_pages_in_space_render "DEV" (Json.obj [("error", Json.str "boom")]) =
      some (Json.obj [("error", Json.str "boom")]) ∧
    Json.obj [("error", Json.str "boom")] ≠ Json.str "boom" :=
  ⟨rfl, rfl, rfl, rfl, fun h => Json.noConfusion h⟩

/-- C3: when the username or the API token is empty,
`make_confluence_request` returns the credentials error mapping at once,
and no HTTP request is issued, whatever the other arguments and the
network behaviour. -/
theorem c3_missing_credentials_no_network (net : HttpRequest → HttpOutcome)
    (username api_token url method : String)
    (params : Option (List (String × Json)))
    (h : username = "" ∨ api_token = "") :
    make_confluence_request net username api_token url method params =
      some (Json.obj [("error",
        Json.str "Please set your Confluence username and API token")],
        none) := by
  unfold make_confluence_request
  rw [if_pos h]

/-- Instantiation of the C3 theorem: empty username, arbitrary network
oracle. -/
theorem c3_missing_credentials_no_network_witness :
    make_confluence_request (fun _ => HttpOutcome.otherExc "unreachable")
      "" "token123" "https://example.com/rest/api/space" "GET" none =
      some (Json.obj [("error",
        Json.str "Please set your Confluence username and API token")],
        none) :=
  c3_missing_credentials_no_network _ _ _ _ _ _ (Or.inl rfl)

/-- C9: the network port resolves to 8000 when the PORT variable is
unset and when its value does not parse as an integer, and to the parsed
integer otherwise. -/
theorem c9_port_resolution :
    parsePort none = 8000 ∧
    (∀ s, pyInt s = none → parsePort (some s) = 8000) ∧
    (∀ s n, pyInt s = some n → parsePort (some s) = n) := by
  refine ⟨rfl, ?_, ?_⟩
  · intro s h
    simp [parsePort, h]
  · intro s n h
    simp [parsePort, h]

/-- Instantiation of the C9 theorem: unset, invalid and valid PORT
values. -/
theorem c9_port_resolution_witness :
    parsePort none = 8000 ∧ parsePort (some "not-a-number") = 8000 ∧
    parsePort (some "8080") = 8080 :=
  ⟨c9_port_resolution.1, c9_port_resolution.2.1 "not-a-number" rfl,
   c9_port_resolution.2.2 "8080" 8080 rfl⟩

/-- C10: an empty string behaves like an omitted argument under the
truthiness checks: `list_spaces` with an empty query builds the same
parameter mapping as with no query (in particular no `name` entry), and
`search_content` with an empty space key builds the same CQL as with no
space key. -/
theorem c10_empty_string_like_omitted (limit start : Option Int)
    (q : String) :
    list_spaces_params (some "") limit start =
      list_spaces_params none limit start ∧
    pyLookup (list_spaces_params (some "") limit start) "name" = none ∧
    search_cql q (some "") = search_cql q none :=
  ⟨rfl, rfl, rfl⟩

/-- C4: `list_spaces` places the given `limit` and `start` values under
those keys in the outgoing parameter mapping, and a non-empty query is
placed under `name` with no `spaceKey` entry. -/
theorem c4_list_spaces_params_spec (query : Option String)
    (limit start : Option Int) (q : String) (hq : q ≠ "") :
    pyLookup (list_spaces_params query limit start) "limit" =
      some (optIntJson limit) ∧
    pyLookup (list_spaces_params query limit start) "start" =
      some (optIntJson start) ∧
    pyLookup (list_spaces_params (some q) limit start) "name" =
      some (Json.str q) ∧
    pyLookup (list_spaces_params (some q) limit start) "spaceKey" = none := by
  have hparams : list_spaces_params (some q) limit start =
      [("limit", optIntJson limit), ("start", optIntJson start),
       ("expand", Json.str "description.plain,homepage"),
       ("name", Json.str q)] := by
    simp only [list_spaces_params]
    rw [if_neg hq]
    rfl
  refine ⟨?_, ?_, ?_, ?_⟩
  · cases query with
    | none => rfl
    | some s =>
      by_cases hs : s = ""
      · subst hs; rfl
      · simp only [list_spaces_params]
        rw [if_neg hs]
        rfl
  · cases query with
    | none => rfl
    | some s =>
      by_cases hs : s = ""
      · subst hs; rfl
      · simp only [list_spaces_params]
        rw [if_neg hs]
        rfl
  · rw [hparams]; rfl
  · rw [hparams]; rfl

/-- Instantiation of the C4 theorem at `limit=10`, `start=5`,
`query="MySpace"`. -/
theorem c4_list_spaces_params_spec_witness :
    pyLookup (list_spaces_params (some "MySpace") (some 10) (some 5))
      "limit" = some (optIntJson (some 10)) ∧
    pyLookup (list_spaces_params (some "MySpace") (some 10) (some 5))
      "start" = some (optIntJson (some 5)) ∧
    pyLookup (list_spaces_params (some "MySpace") (some 10) (some 5))
      "name" = some (Json.str "MySpace") ∧
    pyLookup (list_spaces_params (some "MySpace") (some 10) (some 5))
      "spaceKey" = none :=
  c4_list_spaces_params_spec (some "MySpace") (some 10) (some 5) "MySpace"
    (by decide)

/-- C5: `search_content` places `limit` and `start` in the parameter
mapping and builds a `cql` parameter from the query interpolated
verbatim, with the space filter appended exactly when a non-empty space
key is given. -/
theorem c5_search_content_params_spec (q : String)
    (space_key : Option String) (limit start : Option Int) :
    pyLookup (search_content_params q space_key limit start) "limit" =
      some (optIntJson limit) ∧
    pyLookup (search_content_params q space_key limit start) "start" =
      some (optIntJson start) ∧
    pyLookup (search_content_params q space_key limit start) "cql" =
      some (Json.str (search_cql q space_key)) ∧
    ((space_key = none ∨ space_key = some "") →
      search_cql q space_key = "text ~ \"" ++ q ++ "\"") ∧
    (∀ k, space_key = some k → k ≠ "" →
      search_cql q space_key =
        "text ~ \"" ++ q ++ "\"" ++ " AND space.key = \"" ++ k ++ "\"") := by
  refine ⟨rfl, rfl, rfl, ?_, ?_⟩
  · rintro (h | h) <;> subst h <;> rfl
  · rintro k rfl hk
    simp only [search_cql]
    rw [if_neg hk]

/-- Instantiation of the C5 theorem: a query with embedded quote
characters and a non-empty space key, `limit=20`, `start=10`. -/
theorem c5_search_content_params_spec_witness :
    pyLookup (search_content_params "say \"hi\"" (some "DEV") (some 20)
      (some 10)) "limit" = some (optIntJson (some 20)) ∧
    pyLookup (search_content_params "say \"hi\"" (some "DEV") (some 20)
      (some 10)) "start" = some (optIntJson (some 10)) ∧
    search_cql "say \"hi\"" (some "DEV") =
      "text ~ \"" ++ "say \"hi\"" ++ "\"" ++ " AND space.key = \"" ++
        "DEV" ++ "\"" :=
  ⟨(c5_search_content_params_spec "say \"hi\"" (some "DEV") (some 20)
      (some 10)).1,
   (c5_search_content_params_spec "say \"hi\"" (some "DEV") (some 20)
      (some 10)).2.1,
   (c5_search_content_params_spec "say \"hi\"" (some "DEV") (some 20)
      (some 10)).2.2.2.2 "DEV" rfl (by decide)⟩

/-- C6: on an error-free payload whose `results` list is empty or
absent, each list-shaped handler returns its sentinel: `No spaces
found`, `No results found`, and `No pages found in space ` followed by
the space key. -/
theorem c6_empty_result_sentinels (kvs : List (String × Json))
    (space_key : String)
    (herr : pyLookup kvs "error" = none)
    (hres : pyLookup kvs "results" = none ∨
            pyLookup kvs "results" = some (Json.arr [])) :
    list_spaces_render (Json.obj kvs) = some (Json.str "No spaces found") ∧
    search_content_render (Json.obj kvs) =
      some (Json.str "No results found") ∧
    list_pages_in_space_render space_key (Json.obj kvs) =
      some (Json.str ("No pages found in space " ++ space_key)) := by
  have h1 : pyIn "error" (Json.obj kvs) = some false := by
    simp [pyIn, herr]
  have h2 : pyGetD (Json.obj kvs) "results" (Json.arr []) =
      some (Json.arr []) := by
    rcases hres with h | h <;> simp [pyGetD, h]
  refine ⟨?_, ?_, ?_⟩ <;>
    simp [list_spaces_render, search_content_render,
      list_pages_in_space_render, h1, h2, pyIterList, optionMapM]

/-- Instantiation of the C6 theorem: a payload with an explicitly empty
`results` list and space key `DEV`. -/
theorem c6_empty_result_sentinels_witness :
    list_spaces_render (Json.obj [("results", Json.arr [])]) =
      some (Json.str "No spaces found") ∧
    search_content_render (Json.obj [("results", Json.arr [])]) =
      some (Json.str "No results found") ∧
    list_pages_in_space_render "DEV" (Json.obj [("results", Json.arr [])]) =
      some (Json.str ("No pages found in space " ++ "DEV")) :=
  c6_empty_result_sentinels [("results", Json.arr [])] "DEV" rfl
    (Or.inr rfl)

/-- C2: as long as the configured credentials are non-empty (and
ASCII-encodable, so that the code reaches its try block), for every url,
method, parameter mapping and network behaviour the adapter returns
without raising; the value is the parsed payload on success, and a
single-key `error` mapping — with the `Error making request` prefix for
`httpx.HTTPError`s and the `Unexpected error` prefix for all other
exceptions — on every failure. -/
theorem c2_adapter_total_uniform_errors (net : HttpRequest → HttpOutcome)
    (username api_token url method : String)
    (params : Option (List (String × Json)))
    (hu : username ≠ "") (ht : api_token ≠ "")
    (henc : (asciiEncode (username ++ ":" ++ api_token)).isSome) :
    ∃ result req,
      make_confluence_request net username api_token url method params =
        some (result, some req) ∧
      ((∃ j, net req = HttpOutcome.success j ∧ result = j) ∨
       (∃ m, result = Json.obj [("error", Json.str m)])) ∧
      (∀ m, net req = HttpOutcome.statusError m →
        result = Json.obj [("error",
          Json.str ("Error making request: " ++ m))]) ∧
      (∀ m, net req = HttpOutcome.networkError m →
        result = Json.obj [("error",
          Json.str ("Error making request: " ++ m))]) ∧
      (∀ m, net req = HttpOutcome.parseError m →
        result = Json.obj [("error",
          Json.str ("Unexpected error: " ++ m))]) ∧
      (∀ m, net req = HttpOutcome.otherExc m →
        result = Json.obj [("error",
          Json.str ("Unexpected error: " ++ m))]) := by
  obtain ⟨bs, hbs⟩ := Option.isSome_iff_exists.mp henc
  refine ⟨classifyOutcome (net (buildHttpRequest url method
      [("Authorization", "Basic " ++ String.mk (base64Encode bs)),
       ("Accept", "application/json")] params)),
    buildHttpRequest url method
      [("Authorization", "Basic " ++ String.mk (base64Encode bs)),
       ("Accept", "application/json")] params, ?_, ?_⟩
  · unfold make_confluence_request
    rw [if_neg (by tauto), hbs]
  · set req := buildHttpRequest url method
      [("Authorization", "Basic " ++ String.mk (base64Encode bs)),
       ("Accept", "application/json")] params with hreq
    refine ⟨?_, ?_, ?_, ?_, ?_⟩
    · cases hnet : net req with
      | success j => exact Or.inl ⟨j, rfl, rfl⟩
      | statusError m => exact Or.inr ⟨"Error making request: " ++ m, rfl⟩
      | networkError m => exact Or.inr ⟨"Error making request: " ++ m, rfl⟩
      | parseError m => exact Or.inr ⟨"Unexpected error: " ++ m, rfl⟩
      | otherExc m => exact Or.inr ⟨"Unexpected error: " ++ m, rfl⟩
    · intro m hm; rw [hm]; rfl
    · intro m hm; rw [hm]; rfl
    · intro m hm; rw [hm]; rfl
    · intro m hm; rw [hm]; rfl

/-- Instantiation of the C2 theorem: a network oracle that always fails
with a transport error. -/
theorem c2_adapter_total_uniform_errors_witness :
    ∃ result req,
      make_confluence_request (fun _ => HttpOutcome.networkError "down")
        "alice" "tok123" "https://example.com/rest/api/space" "GET"
        (some [("limit", Json.num 25)]) = some (result, some req) ∧
      ((∃ j, (fun (_ : HttpRequest) => HttpOutcome.networkError "down") req =
          HttpOutcome.success j ∧ result = j) ∨
       (∃ m, result = Json.obj [("error", Json.str m)])) ∧
      (∀ m, (fun (_ : HttpRequest) => HttpOutcome.networkError "down") req =
          HttpOutcome.statusError m →
        result = Json.obj [("error",
          Json.str ("Error making request: " ++ m))]) ∧
      (∀ m, (fun (_ : HttpRequest) => HttpOutcome.networkError "down") req =
          HttpOutcome.networkError m →
        result = Json.obj [("error",
          Json.str ("Error making request: " ++ m))]) ∧
      (∀ m, (fun (_ : HttpRequest) => HttpOutcome.networkError "down") req =
          HttpOutcome.parseError m →
        result = Json.obj [("error",
          Json.str ("Unexpected error: " ++ m))]) ∧
      (∀ m, (fun (_ : HttpRequest) => HttpOutcome.networkError "down") req =
          HttpOutcome.otherExc m →
        result = Json.obj [("error",
          Json.str ("Unexpected error: " ++ m))]) :=
  c2_adapter_total_uniform_errors _ "alice" "tok123"
    "https://example.com/rest/api/space" "GET"
    (some [("limit", Json.num 25)]) (by decide) (by decide) (by decide)

/-- C8: every request the adapter issues carries an Authorization header
of `Basic ` followed by the base64 of the ASCII encoding of
`username:token`, an `Accept: application/json` header, the fixed
30-second timeout, and the parameters as query string for GET and as
body for any other method. -/
theorem c8_request_construction (net : HttpRequest → HttpOutcome)
    (username api_token url method : String)
    (params : Option (List (String × Json)))
    (hu : username ≠ "") (ht : api_token ≠ "") (bs : List Nat)
    (hbs : asciiEncode (username ++ ":" ++ api_token) = some bs) :
    ∃ result req,
      make_confluence_request net username api_token url method params =
        some (result, some req) ∧
      req.url = url ∧
      req.method = method ∧
      req.headers =
        [("Authorization", "Basic " ++ String.mk (base64Encode bs)),
         ("Accept", "application/json")] ∧
      req.timeout = 30 ∧
      (method = "GET" → req.queryParams = params ∧ req.jsonBody = none) ∧
      (method ≠ "GET" → req.queryParams = none ∧ req.jsonBody = params) := by
  refine ⟨classifyOutcome (net (buildHttpRequest url method
      [("Authorization", "Basic " ++ String.mk (base64Encode bs)),
       ("Accept", "application/json")] params)),
    buildHttpRequest url method
      [("Authorization", "Basic " ++ String.mk (base64Encode bs)),
       ("Accept", "application/json")] params, ?_, ?_, ?_, ?_, ?_, ?_, ?_⟩
  · unfold make_confluence_request
    rw [if_neg (by tauto), hbs]
  · by_cases hm : method = "GET" <;> simp [buildHttpRequest, hm]
  · by_cases hm : method = "GET" <;> simp [buildHttpRequest, hm]
  · by_cases hm : method = "GET" <;> simp [buildHttpRequest, hm]
  · by_cases hm : method = "GET" <;> simp [buildHttpRequest, hm]
  · intro hm; rw [buildHttpRequest, if_pos hm]; exact ⟨rfl, rfl⟩
  · intro hm; rw [buildHttpRequest, if_neg hm]; exact ⟨rfl, rfl⟩

/-- Instantiation of the C8 theorem: concrete credentials
(`alice:tok123`, whose ASCII base64 is computed by the proof), a GET
request with one parameter. -/
theorem c8_request_construction_witness :
    ∃ result req,
      make_confluence_request (fun _ => HttpOutcome.success (Json.obj []))
        "alice" "tok123" "https://example.com/rest/api/space" "GET"
        (some [("limit", Json.num 25)]) = some (result, some req) ∧
      req.url = "https://example.com/rest/api/space" ∧
      req.method = "GET" ∧
      req.headers =
        [("Authorization", "Basic " ++ String.mk (base64Encode
          [97, 108, 105, 99, 101, 58, 116, 111, 107, 49, 50, 51])),
         ("Accept", "application/json")] ∧
      req.timeout = 30 ∧
      ("GET" = "GET" → req.queryParams = some [("limit", Json.num 25)] ∧
        req.jsonBody = none) ∧
      ("GET" ≠ "GET" → req.queryParams = none ∧
        req.jsonBody = some [("limit", Json.num 25)]) :=
  c8_request_construction _ "alice" "tok123"
    "https://example.com/rest/api/space" "GET"
    (some [("limit", Json.num 25)]) (by decide) (by decide)
    [97, 108, 105, 99, 101, 58, 116, 111, 107, 49, 50, 51] rfl

/-- C7: formatting succeeds on every payload in which any subset of the
extracted fields is missing, and each missing field renders as its
placeholder (`Unknown`, `No description`, `No content`, `No labels`):
stated for the per-space block of `list_spaces` over all 16
present/absent combinations of its four fields, and for the whole
`get_page_content` renderer over all present/absent combinations of its
five extracted fields. -/
theorem c7_missing_fields_render_placeholders
    (name key type_ descv : Option String)
    (title spaceName : Option String) (versionNum : Option Int)
    (content : Option String) (labels : Option (List String)) :
    space_info (mkSpaceItem name key type_ descv) =
      some (space_info_text (name.getD "Unknown") (key.getD "Unknown")
        (type_.getD "Unknown") (descv.getD "No description")) ∧
    get_page_content_render
        (mkPagePayload title spaceName versionNum content labels) =
      some (Json.str (page_text (title.getD "Unknown")
        (spaceName.getD "Unknown")
        ((versionNum.map (fun n => toString n)).getD "Unknown")
        (match labels with
          | none => "No labels"
          | some [] => "No labels"
          | some (l :: rest) => String.intercalate ", " (l :: rest))
        (content.getD "No content"))) := by
  constructor
  · cases name <;> cases key <;> cases type_ <;> cases descv <;> rfl
  · cases title <;> cases spaceName <;> cases versionNum <;>
      cases content <;> rcases labels with _ | (_ | ⟨l, rest⟩) <;>
      first
        | rfl
        | simp [get_page_content_render, mkPagePayload, optEntry, pyIn,
            pyGetD, pyLookup, pyIterList, page_labels, page_content_value,
            labels_text, pyJoin, optionMapM, label_get_name, asPyStr,
            pyStr, mapM_label_names, mapM_extract_str, page_text]

end Confluence
